import Mathlib

/-!
Verification of the Unity Texture Resizer core logic.

The development shallowly embeds:
  * `calculateTargetDimension` from `src/utils/imageUtils.ts` (the dimension
    rounder).  JavaScript integer remainder (`%`) truncates towards zero, so it
    is embedded as `Int.tmod`.
  * `processAll` and `downloadAll` from `src/App.tsx` (the batch pipeline over
    image records).  The external resampler and blob fetcher are passed in as
    function parameters; a failing resample is an `Except.error`.
-/

namespace TextureTool

/-- Embedding of `calculateTargetDimension` (src/utils/imageUtils.ts, lines 9-15):
```
export const calculateTargetDimension = (val: number): number => {
  if (val <= 2) return val;
  const rem = val % 4;
  if (rem <= 2) return val - rem;
  return val + (4 - rem);
};
```
JS `%` on integers truncates towards zero, i.e. `Int.tmod`. -/
def calculateTargetDimension (val : Int) : Int :=
  if val ≤ 2 then val
  else
    let rem := Int.tmod val 4
    if rem ≤ 2 then val - rem
    else val + (4 - rem)

/-- Per-image processing state (src/types.ts, `ImageFile.status`):
`'pending' | 'processing' | 'done' | 'error'`. -/
inductive Status where
  | pending
  | processing
  | done
  | error
deriving DecidableEq, Repr

/-- Embedding of the `ImageFile` record (src/types.ts).  The browser `File`
handle is reduced to its name (the only part the pipeline logic reads); object
URLs and blobs are modelled as strings. -/
structure ImageFile where
  id : String
  fileName : String
  originalWidth : Int
  originalHeight : Int
  targetWidth : Int
  targetHeight : Int
  previewUrl : String
  processedUrl : Option String
  status : Status
deriving DecidableEq, Repr

/-- One iteration of the `processAll` loop body (src/App.tsx, lines 76-97) for
the image at index `i`.  The external resampler `resizeImage` is a parameter:
`Except.ok url` models a successful resize whose blob was wrapped in an object
URL, `Except.error` models a thrown exception.  The loop skips images already
`'done'`; on success it sets `processedUrl` and `status: 'done'` (via the
intermediate `'processing'` record), on failure it sets `status: 'error'` on
the original record. -/
def processOne (resizeImage : ImageFile → Except String String)
    (img : ImageFile) : ImageFile :=
  if img.status = Status.done then img
  else
    match resizeImage img with
    | Except.ok url => { img with processedUrl := some url, status := Status.done }
    | Except.error _ => { img with status := Status.error }

/-- Embedding of `processAll` (src/App.tsx, lines 70-100).  The loop touches
exactly index `i` in iteration `i`, so its final state is the element-wise map
of `processOne`; the early return on an empty list is kept. -/
def processAll (resizeImage : ImageFile → Except String String)
    (images : List ImageFile) : List ImageFile :=
  if images.length = 0 then images
  else images.map (processOne resizeImage)

/-- The filter used by `downloadAll` (src/App.tsx, line 125):
`img.status === 'done' && img.processedUrl`. -/
def isDoneWithUrl (img : ImageFile) : Bool :=
  img.status == Status.done && img.processedUrl.isSome

/-- Embedding of `downloadAll` (src/App.tsx, lines 123-142).  `fetchBlob`
models fetching an object URL back into a blob; the produced archive is the
list of `zip.file(fileName, blob)` calls in order, and `none` models the early
return when no image passes the filter (no archive produced). -/
def downloadAll (fetchBlob : String → String)
    (images : List ImageFile) : Option (List (String × String)) :=
  let doneImages := images.filter isDoneWithUrl
  if doneImages.length = 0 then none
  else some (doneImages.map
    (fun img => (img.fileName, fetchBlob (img.processedUrl.getD ""))))

/-- Sample record: a pending 33×35 texture (used by concrete witnesses). -/
def sampleA : ImageFile :=
  { id := "1", fileName := "a.png", originalWidth := 33, originalHeight := 35,
    targetWidth := 32, targetHeight := 36, previewUrl := "blob:a",
    processedUrl := none, status := Status.pending }

/-- Sample record: a pending 2×2 texture. -/
def sampleB : ImageFile :=
  { id := "2", fileName := "b.png", originalWidth := 2, originalHeight := 2,
    targetWidth := 2, targetHeight := 2, previewUrl := "blob:b",
    processedUrl := none, status := Status.pending }

/-- Sample record: an already processed texture. -/
def sampleDone : ImageFile :=
  { id := "3", fileName := "c.png", originalWidth := 34, originalHeight := 34,
    targetWidth := 32, targetHeight := 32, previewUrl := "blob:c",
    processedUrl := some "blob:pc", status := Status.done }

/-- Sample resampler oracle: fails on the image with id `"1"`, succeeds
otherwise. -/
def failOnFirst (img : ImageFile) : Except String String :=
  if img.id = "1" then Except.error "resample failure"
  else Except.ok ("blob:p" ++ img.fileName)

/-- Sample blob fetcher for `downloadAll` witnesses. -/
def sampleFetch (url : String) : String := "data:" ++ url

/-- The archive produced by `downloadAll sampleFetch [sampleDone, sampleA]`. -/
def sampleEntries : List (String × String) := [("c.png", "data:blob:pc")]

/-- For non-negative arguments, the truncating remainder used by JS agrees with
the mathematical (Euclidean) remainder. -/
lemma tmod_four_eq_emod (val : Int) (h : 0 ≤ val) : Int.tmod val 4 = val % 4 :=
  Int.tmod_eq_emod h (by norm_num)

/-- Closed form of the rounder for `val > 2`, phrased with the Euclidean
remainder so that `omega` can reason about it. -/
lemma calculateTargetDimension_of_gt_two (val : Int) (h : 2 < val) :
    calculateTargetDimension val =
      if val % 4 ≤ 2 then val - val % 4 else val + (4 - val % 4) := by
  unfold calculateTargetDimension
  rw [if_neg (by omega), tmod_four_eq_emod val (by omega)]

end TextureTool

namespace TextureTool

/-- **C1**: for every integer `val ≥ 0`, `calculateTargetDimension` follows the
two-branch policy: `val ≤ 2` returns `val`; otherwise with `rem = val mod 4`,
`rem = 0` returns `val`, `rem = 1` or `2` returns `val - rem`, and `rem = 3`
returns `val + (4 - rem)`. -/
theorem calculateTargetDimension_policy (val : Int) (hval : 0 ≤ val) :
    (val ≤ 2 → calculateTargetDimension val = val) ∧
    (2 < val →
      (val % 4 = 0 → calculateTargetDimension val = val) ∧
      (val % 4 = 1 ∨ val % 4 = 2 →
        calculateTargetDimension val = val - val % 4) ∧
      (val % 4 = 3 →
        calculateTargetDimension val = val + (4 - val % 4))) := by
  constructor
  · intro h
    unfold calculateTargetDimension
    rw [if_pos h]
  · intro h
    rw [calculateTargetDimension_of_gt_two val h]
    refine ⟨?_, ?_, ?_⟩
    · intro h0; rw [if_pos (by omega)]; omega
    · intro h12; rw [if_pos (by omega)]
    · intro h3; rw [if_neg (by omega)]

/-- Witness for C1: the policy instantiated at `val = 35` (remainder 3),
yielding `36`. -/
theorem calculateTargetDimension_policy_witness :
    (0 : Int) ≤ 35 ∧ calculateTargetDimension 35 = 35 + (4 - 35 % 4) := by
  refine ⟨by decide, ?_⟩
  exact ((calculateTargetDimension_policy 35 (by decide)).2 (by decide)).2.2
    (by decide)

/-- **C2 counterexample**: at the concrete negative input `-1` the code does
not fail; the `val ≤ 2` branch fires and the function returns `-1`
unchanged, contradicting the claim that every negative input signals
`InvalidArgument` rather than returning a value. -/
theorem calculateTargetDimension_neg_one_returns :
    calculateTargetDimension (-1) = -1 := by decide

/-- **C2 (amended)**: for every negative integer input, `calculateTargetDimension`
does not signal any error; it takes the `val ≤ 2` branch and returns the input
unchanged. -/
theorem calculateTargetDimension_neg (val : Int) (h : val < 0) :
    calculateTargetDimension val = val := by
  unfold calculateTargetDimension
  rw [if_pos (by omega)]

/-- Witness for the amended C2 at `val = -1`. -/
theorem calculateTargetDimension_neg_witness :
    (-1 : Int) < 0 ∧ calculateTargetDimension (-1) = -1 :=
  ⟨by decide, calculateTargetDimension_neg (-1) (by decide)⟩

/-- **C3**: for every integer `val ≥ 0` the result is a non-negative integer,
and for every `val > 2` the result is divisible by 4. -/
theorem calculateTargetDimension_nonneg_dvd (val : Int) (hval : 0 ≤ val) :
    0 ≤ calculateTargetDimension val ∧
    (2 < val → (4 : Int) ∣ calculateTargetDimension val) := by
  constructor
  · by_cases h : val ≤ 2
    · unfold calculateTargetDimension; rw [if_pos h]; exact hval
    · rw [calculateTargetDimension_of_gt_two val (by omega)]
      have := Int.emod_nonneg val (show (4:Int) ≠ 0 by norm_num)
      have := Int.emod_lt_of_pos val (show (0:Int) < 4 by norm_num)
      split <;> omega
  · intro h
    rw [calculateTargetDimension_of_gt_two val h]
    have h4 : val % 4 + 4 * (val / 4) = val := Int.emod_add_ediv val 4
    have := Int.emod_nonneg val (show (4:Int) ≠ 0 by norm_num)
    have := Int.emod_lt_of_pos val (show (0:Int) < 4 by norm_num)
    split
    · exact ⟨val / 4, by omega⟩
    · exact ⟨val / 4 + 1, by omega⟩

/-- Witness for C3 at `val = 7`: result `8` is non-negative and divisible
by 4. -/
theorem calculateTargetDimension_nonneg_dvd_witness :
    0 ≤ calculateTargetDimension 7 ∧
    (2 < (7 : Int) → (4 : Int) ∣ calculateTargetDimension 7) :=
  calculateTargetDimension_nonneg_dvd 7 (by decide)

/-- Values above 2 that are multiples of 4 are fixed points of the rounder. -/
lemma calculateTargetDimension_fixed (w : Int) (hw : 2 < w)
    (hdvd : w % 4 = 0) : calculateTargetDimension w = w := by
  rw [calculateTargetDimension_of_gt_two w hw, if_pos (by omega)]
  omega

/-- **C4**: `calculateTargetDimension` is idempotent on non-negative
integers. -/
theorem calculateTargetDimension_idem (val : Int) (hval : 0 ≤ val) :
    calculateTargetDimension (calculateTargetDimension val) =
      calculateTargetDimension val := by
  by_cases h : val ≤ 2
  · have hv : calculateTargetDimension val = val := by
      unfold calculateTargetDimension; rw [if_pos h]
    rw [hv, hv]
  · have hgt : 2 < val := by omega
    have hr0 := Int.emod_nonneg val (show (4:Int) ≠ 0 by norm_num)
    have hr4 := Int.emod_lt_of_pos val (show (0:Int) < 4 by norm_num)
    have hform := calculateTargetDimension_of_gt_two val hgt
    obtain ⟨k, hk⟩ := (calculateTargetDimension_nonneg_dvd val hval).2 hgt
    have hbig : 2 < calculateTargetDimension val := by
      rw [hform]
      have h4 : val % 4 + 4 * (val / 4) = val := Int.emod_add_ediv val 4
      have hge4 : val % 4 ≤ 2 → 4 ≤ val := by
        intro hle
        by_contra hlt
        interval_cases val <;> omega
      split <;> [skip; omega]
      have := hge4 (by omega)
      omega
    refine calculateTargetDimension_fixed _ hbig ?_
    rw [hk]
    omega

/-- Witness for C4 at `val = 33`. -/
theorem calculateTargetDimension_idem_witness :
    calculateTargetDimension (calculateTargetDimension 33) =
      calculateTargetDimension 33 :=
  calculateTargetDimension_idem 33 (by decide)

/-- **C5**: for every integer `val > 2` the adjustment is bounded: the result
is at most 2 below and at most 1 above `val` (hence `|result - val| ≤ 2`). -/
theorem calculateTargetDimension_adjustment_bound (val : Int) (h : 2 < val) :
    val - 2 ≤ calculateTargetDimension val ∧
    calculateTargetDimension val ≤ val + 1 ∧
    |calculateTargetDimension val - val| ≤ 2 := by
  rw [calculateTargetDimension_of_gt_two val h]
  have := Int.emod_nonneg val (show (4:Int) ≠ 0 by norm_num)
  have := Int.emod_lt_of_pos val (show (0:Int) < 4 by norm_num)
  split <;> refine ⟨by omega, by omega, ?_⟩ <;> rw [abs_le] <;> omega

/-- Witness for C5 at `val = 34`: result `32` is within the stated bounds. -/
theorem calculateTargetDimension_adjustment_bound_witness :
    (34:Int) - 2 ≤ calculateTargetDimension 34 ∧
    calculateTargetDimension 34 ≤ 34 + 1 ∧
    |calculateTargetDimension 34 - 34| ≤ 2 :=
  calculateTargetDimension_adjustment_bound 34 (by decide)

/-- **C6**: the concrete test vectors: `0↦0`, `1↦1`, `2↦2`, `33↦32`, `34↦32`,
`35↦36`, `36↦36`, `37↦36`. -/
theorem calculateTargetDimension_vectors :
    calculateTargetDimension 0 = 0 ∧
    calculateTargetDimension 1 = 1 ∧
    calculateTargetDimension 2 = 2 ∧
    calculateTargetDimension 33 = 32 ∧
    calculateTargetDimension 34 = 32 ∧
    calculateTargetDimension 35 = 36 ∧
    calculateTargetDimension 36 = 36 ∧
    calculateTargetDimension 37 = 36 := by decide

/-- **C8**: `calculateTargetDimension` is deterministic: two invocations on
equal inputs yield equal results.  (In this embedding the source is a pure
function of its argument alone — the body of lines 9-15 reads and writes no
variable other than `val` and `rem` — so determinism is reflected by the fact
that it is a plain function.) -/
theorem calculateTargetDimension_deterministic (v w : Int) (h : v = w) :
    calculateTargetDimension v = calculateTargetDimension w := by
  rw [h]

/-- Witness for C8 at `v = w = 35`. -/
theorem calculateTargetDimension_deterministic_witness :
    (35 : Int) = 35 ∧
    calculateTargetDimension 35 = calculateTargetDimension 35 :=
  ⟨rfl, calculateTargetDimension_deterministic 35 35 rfl⟩

/-- On a non-empty batch, the image at index `k` after `processAll` is
`processOne` of the image that was there before; in particular iteration `i`
of the loop affects no other index. -/
lemma processAll_get (resizeImage : ImageFile → Except String String)
    (images : List ImageFile) (k : Nat) (img : ImageFile)
    (hget : images[k]? = some img) :
    (processAll resizeImage images)[k]? = some (processOne resizeImage img) := by
  have hk : k < images.length := by
    rcases List.getElem?_eq_some.1 hget with ⟨h, _⟩
    exact h
  unfold processAll
  rw [if_neg (by omega), List.getElem?_map, hget]
  rfl

/-- **C7**: in a batch run of `processAll`, a resample failure on the image at
index `i` marks only that image `'error'`, and any sibling index `j` that
would reach `'done'` on its own (already `'done'`, or its resample succeeds)
still ends the batch `'done'`. -/
theorem processAll_isolates_failure
    (resizeImage : ImageFile → Except String String)
    (images : List ImageFile) (i j : Nat) (imgI imgJ : ImageFile)
    (hij : i ≠ j)
    (hgetI : images[i]? = some imgI)
    (hgetJ : images[j]? = some imgJ)
    (hstat : imgI.status ≠ Status.done)
    (e : String) (hfail : resizeImage imgI = Except.error e) :
    Option.map ImageFile.status ((processAll resizeImage images)[i]?) =
      some Status.error ∧
    ((imgJ.status = Status.done ∨ ∃ url, resizeImage imgJ = Except.ok url) →
      Option.map ImageFile.status ((processAll resizeImage images)[j]?) =
        some Status.done) := by
  constructor
  · rw [processAll_get resizeImage images i imgI hgetI]
    unfold processOne
    rw [if_neg hstat, hfail]
    rfl
  · intro hj
    rw [processAll_get resizeImage images j imgJ hgetJ]
    unfold processOne
    rcases hj with hdone | ⟨url, hok⟩
    · rw [if_pos hdone]
      simp [hdone]
    · by_cases hd : imgJ.status = Status.done
      · rw [if_pos hd]
        simp [hd]
      · rw [if_neg hd, hok]
        rfl

/-- Witness for C7: the batch `[sampleA, sampleB]` under the oracle
`failOnFirst`, which fails on `sampleA` (index 0): index 0 ends `'error'` and
index 1, whose resample succeeds, ends `'done'`. -/
theorem processAll_isolates_failure_witness :
    Option.map ImageFile.status ((processAll failOnFirst [sampleA, sampleB])[0]?) =
      some Status.error ∧
    ((sampleB.status = Status.done ∨
        ∃ url, failOnFirst sampleB = Except.ok url) →
      Option.map ImageFile.status
          ((processAll failOnFirst [sampleA, sampleB])[1]?) =
        some Status.done) :=
  processAll_isolates_failure failOnFirst [sampleA, sampleB] 0 1 sampleA sampleB
    (by decide) rfl rfl (by decide) "resample failure" rfl

/-- **C9**: `processAll` leaves every image whose status is already `'done'`
unchanged as a whole record: the entry at its index after the run is exactly
the entry before. -/
theorem processAll_preserves_done
    (resizeImage : ImageFile → Except String String)
    (images : List ImageFile) (j : Nat) (imgJ : ImageFile)
    (hget : images[j]? = some imgJ)
    (hdone : imgJ.status = Status.done) :
    (processAll resizeImage images)[j]? = some imgJ := by
  rw [processAll_get resizeImage images j imgJ hget]
  unfold processOne
  rw [if_pos hdone]

/-- Witness for C9: in the batch `[sampleDone, sampleA]` under `failOnFirst`,
the already-done image at index 0 is returned bit-for-bit unchanged. -/
theorem processAll_preserves_done_witness :
    (processAll failOnFirst [sampleDone, sampleA])[0]? = some sampleDone :=
  processAll_preserves_done failOnFirst [sampleDone, sampleA] 0 sampleDone
    rfl rfl

/-- **C10**: `downloadAll` produces no archive exactly when no image passes
the `'done'`-with-`processedUrl` filter, and any archive it produces lists
exactly the filtered images, in order, each under its original file name with
its fetched blob. -/
theorem downloadAll_archive_exact (fetchBlob : String → String)
    (images : List ImageFile) :
    (downloadAll fetchBlob images = none ↔
      images.filter isDoneWithUrl = []) ∧
    (∀ entries, downloadAll fetchBlob images = some entries →
      entries = (images.filter isDoneWithUrl).map
        (fun img => (img.fileName, fetchBlob (img.processedUrl.getD "")))) := by
  unfold downloadAll
  by_cases h : (images.filter isDoneWithUrl).length = 0
  · rw [if_pos h]
    refine ⟨⟨fun _ => List.length_eq_zero.1 h, fun _ => rfl⟩, ?_⟩
    intro entries hsome
    exact absurd hsome (by simp)
  · rw [if_neg h]
    refine ⟨⟨fun hnone => absurd hnone (by simp), fun hnil => ?_⟩, ?_⟩
    · exact absurd (by rw [hnil]; rfl) h
    · intro entries hsome
      exact (Option.some_inj.1 hsome).symm

/-- Witness for C10: on the batch `[sampleDone, sampleA]` only `sampleDone`
passes the filter, and the archive is `[("c.png", "data:blob:pc")]`. -/
theorem downloadAll_archive_exact_witness :
    sampleEntries = (([sampleDone, sampleA]).filter isDoneWithUrl).map
      (fun img => (img.fileName, sampleFetch (img.processedUrl.getD ""))) :=
  (downloadAll_archive_exact sampleFetch [sampleDone, sampleA]).2
    sampleEntries rfl

end TextureTool
